import Mathlib

/-!
Shallow embedding of `CLIPlayer.py` (OpenUMP).

The program is a terminal audio player: a class `AudioPlayer` holding the
playback state (current file, paused flag, volume, repeat and shuffle flags,
playlist, current index) over the pygame mixer backend, plus a urwid UI class
`AudioPlayerUI` whose handlers drive it.

Modelling conventions:
  * The pygame backend is opaque.  Every call the code makes to it is recorded
    in a trace of `Call` values; the values the backend returns to the code
    (load success, `get_busy`, `get_pos`) are passed in as explicit oracle
    arguments.
  * Python floats for volume and positions are modelled as rationals; the only
    operations performed on them (`+`, `max`, `min`, division by 1000) are
    order-theoretic, so the clamping facts proved below are insensitive to the
    representation.
  * Python ints are `Int`; Python `%` on a positive modulus is `Int.emod`.
  * Code that can raise a Python exception is modelled in `Except PyError`.
-/

namespace OpenUMP

/-- Backend (pygame.mixer.music) calls observable in a run, in program order. -/
inductive Call where
  | music_load (path : String)
  | music_play
  | music_unpause
  | music_pause
  | music_stop
  | music_set_volume (v : ℚ)
  | get_busy
  | get_pos
  | set_pos (seconds : ℚ)
deriving DecidableEq

/-- Python exceptions the transport code can raise. -/
inductive PyError where
  | zeroDivisionError
  | valueError
  | indexError
deriving DecidableEq

/-- Fields assigned in `AudioPlayer.__init__`. -/
structure PlayerState where
  current_file : Option String
  paused : Bool
  volume : ℚ
  «repeat» : Bool
  shuffle : Bool
  playlist : List String
  current_index : Int
deriving DecidableEq

/-- `AudioPlayer.__init__`: no file, not paused, volume 1.0, both flags off,
empty playlist, index 0. -/
def AudioPlayer.init : PlayerState :=
  { current_file := none, paused := false, volume := 1, «repeat» := false,
    shuffle := false, playlist := [], current_index := 0 }

/-- `AudioPlayer.load`: tries `pygame.mixer.music.load(filename)` (its outcome
is the oracle `loadOk`); on success records the file and forwards the stored
volume to the backend, returning `True`; the `except` arm returns `False` with
nothing changed.  Result: (returned bool, new state, backend trace). -/
def AudioPlayer.load (loadOk : Bool) (filename : String) (s : PlayerState) :
    Bool × PlayerState × List Call :=
  if loadOk then
    (true, { s with current_file := some filename },
      [Call.music_load filename, Call.music_set_volume s.volume])
  else
    (false, s, [Call.music_load filename])

/-- `AudioPlayer.play`: unpause when paused, else a fresh play; either way the
paused flag ends false.  No check of `current_file` happens here. -/
def AudioPlayer.play (s : PlayerState) : PlayerState × List Call :=
  if s.paused then
    ({ s with paused := false }, [Call.music_unpause])
  else
    ({ s with paused := false }, [Call.music_play])

/-- `AudioPlayer.pause`: probes `get_busy` (oracle `busy`); pauses only when
busy and not already paused. -/
def AudioPlayer.pause (busy : Bool) (s : PlayerState) : PlayerState × List Call :=
  if busy && !s.paused then
    ({ s with paused := true }, [Call.get_busy, Call.music_pause])
  else
    (s, [Call.get_busy])

/-- `AudioPlayer.stop`: unconditional backend stop, paused flag cleared. -/
def AudioPlayer.stop (s : PlayerState) : PlayerState × List Call :=
  ({ s with paused := false }, [Call.music_stop])

/-- `AudioPlayer.is_playing`: pure delegation to the `get_busy` probe. -/
def AudioPlayer.is_playing (busy : Bool) : Bool × List Call :=
  (busy, [Call.get_busy])

/-- `AudioPlayer.set_volume`: stores `max(0.0, min(1.0, volume))` and forwards
it to the backend. -/
def AudioPlayer.set_volume (volume : ℚ) (s : PlayerState) : PlayerState × List Call :=
  let v := max 0 (min 1 volume)
  ({ s with volume := v }, [Call.music_set_volume v])

/-- `AudioPlayer.seek`: guarded by `current_file`; reads the backend position
(oracle `posMs`, milliseconds as returned by `get_pos`), converts to seconds,
and seeks to `max(0, current_pos + seconds)`. -/
def AudioPlayer.seek (posMs : Int) (seconds : ℚ) (s : PlayerState) : PlayerState × List Call :=
  if s.current_file.isSome then
    let current_pos : ℚ := (posMs : ℚ) / 1000
    let new_pos := max 0 (current_pos + seconds)
    (s, [Call.get_pos, Call.set_pos new_pos])
  else
    (s, [])

/-- `AudioPlayer.toggle_repeat`: flips the flag, touches nothing else. -/
def AudioPlayer.toggle_repeat (s : PlayerState) : PlayerState × List Call :=
  ({ s with «repeat» := !s.«repeat» }, [])

/-- Python `<` on lists of characters: lexicographic, comparing characters by
code point.  This is how Python compares the path strings in the playlist. -/
def pyLt : List Char → List Char → Bool
  | [], [] => false
  | [], _ :: _ => true
  | _ :: _, [] => false
  | a :: as, b :: bs => if a = b then pyLt as bs else decide (a < b)

/-- Python `<` on strings. -/
def pyStrLt (a b : String) : Bool := pyLt a.data b.data

/-- Python `<=` on strings (total since `<` is a strict total order). -/
def pyStrLe (a b : String) : Bool := !pyStrLt b a

/-- Sorting relation used by `list.sort()` on the playlist paths. -/
def pathLe (a b : String) : Prop := pyStrLe a b = true

instance : DecidableRel pathLe := fun a b => instDecidableEqBool (pyStrLe a b) true

/-- `list.sort()` on the playlist: lexicographically sorted result (Python uses
a stable mergesort; on a linearly ordered key the sorted result is unique, so
insertion sort denotes the same list). -/
def pySort (l : List String) : List String := l.insertionSort pathLe

/-- `AudioPlayer.toggle_shuffle`: flips the flag first; if now on, installs the
result of `random.shuffle` (oracle `shuffled`, constrained to a permutation in
the theorems below); if now off, sorts the playlist in place. -/
def AudioPlayer.toggle_shuffle (shuffled : List String) (s : PlayerState) :
    PlayerState × List Call :=
  if !s.shuffle then
    ({ s with shuffle := true, playlist := shuffled }, [])
  else
    ({ s with shuffle := false, playlist := pySort s.playlist }, [])

/-- Python list indexing `l[i]`, including negative-index wraparound. -/
def pyIndex (l : List String) (i : Int) : Option String :=
  if 0 ≤ i then l.get? i.toNat
  else if -(l.length : Int) ≤ i then l.get? (i + l.length).toNat
  else none

/-- Shared tail of `next_track` and `previous_track`:
`self.load(self.playlist[self.current_index])` (result ignored) then
`self.play()`. -/
def AudioPlayer.load_and_play (loadOk : Bool) (s : PlayerState) :
    Except PyError (PlayerState × List Call) :=
  match pyIndex s.playlist s.current_index with
  | none => Except.error PyError.indexError
  | some t =>
    let r := AudioPlayer.load loadOk t s
    let p := AudioPlayer.play r.2.1
    Except.ok (p.1, r.2.2 ++ p.2)

/-- `AudioPlayer.next_track`.  Under shuffle, `random.randint(0, len - 1)`
(oracle `rnd`) raises `ValueError` on an empty playlist; otherwise
`(current_index + 1) % len(playlist)` raises `ZeroDivisionError` on an empty
playlist.  Then loads and plays the track at the new index. -/
def AudioPlayer.next_track (rnd : Int) (loadOk : Bool) (s : PlayerState) :
    Except PyError (PlayerState × List Call) :=
  if s.shuffle then
    if s.playlist.length = 0 then
      Except.error PyError.valueError
    else
      AudioPlayer.load_and_play loadOk { s with current_index := rnd }
  else
    if s.playlist.length = 0 then
      Except.error PyError.zeroDivisionError
    else
      AudioPlayer.load_and_play loadOk
        { s with current_index := (s.current_index + 1).emod s.playlist.length }

/-- `AudioPlayer.previous_track`: symmetric, with `(current_index - 1) % len`. -/
def AudioPlayer.previous_track (rnd : Int) (loadOk : Bool) (s : PlayerState) :
    Except PyError (PlayerState × List Call) :=
  if s.shuffle then
    if s.playlist.length = 0 then
      Except.error PyError.valueError
    else
      AudioPlayer.load_and_play loadOk { s with current_index := rnd }
  else
    if s.playlist.length = 0 then
      Except.error PyError.zeroDivisionError
    else
      AudioPlayer.load_and_play loadOk
        { s with current_index := (s.current_index - 1).emod s.playlist.length }

/-- Python `str.lower`, per character (the extensions compared against are
ASCII, where this agrees with Python). -/
def pyLower (s : String) : String := String.mk (s.data.map Char.toLower)

/-- Python `str.endswith`, on the character data. -/
def pyEndswith (s suffix : String) : Bool := suffix.data.isSuffixOf s.data

/-- `os.path.join(directory, f)` for a relative component `f`. -/
def pyJoin (directory f : String) : String :=
  if directory = "" then f
  else if pyEndswith directory "/" then directory ++ f
  else directory ++ "/" ++ f

/-- The tuple `('.mp3', '.wav', '.flac')` in `get_audio_files`. -/
def audio_extensions : List String := [".mp3", ".wav", ".flac"]

/-- `get_audio_files(directory)`.  `os.listdir` and the `os.path.isfile` probe
are the oracle `listing`: the directory entries in the order the OS returns
them, each paired with its `isfile` answer.  The comprehension keeps entries
whose lowercased name ends in a supported extension and which are files, and
joins each with the directory. -/
def get_audio_files (directory : String) (listing : List (String × Bool)) :
    List String :=
  (listing.filter fun e =>
      (audio_extensions.any fun ext => pyEndswith (pyLower e.1) ext) && e.2).map
    fun e => pyJoin directory e.1

/-- `os.path.basename` on a slash-separated path: the part after the last
slash. -/
def basename (p : String) : String :=
  String.mk (p.data.foldl (fun acc c => if c = '/' then [] else acc ++ [c]) [])

/-- The fragment list built by `AudioPlayerUI.update_status`: the phase
(`paused` first, then the `is_playing` probe, else stopped), then the base name
of the current file when one is set. -/
def status_fragments (busy : Bool) (s : PlayerState) : List String :=
  (if s.paused then ["Пауза"]
   else if busy then ["Воспроизведение"]
   else ["Остановлено"]) ++
  (match s.current_file with
   | some f => ["Файл: " ++ basename f]
   | none => [])

/-- The text `AudioPlayerUI.update_status` puts in the status line. -/
def update_status (busy : Bool) (s : PlayerState) : String :=
  " Статус: " ++ String.intercalate " | " (status_fragments busy s) ++ " "

/-- `AudioPlayerUI.on_play_pause`: guarded by `current_file`; when `paused` is
set the probe is short-circuited away, otherwise `is_playing` is probed, and
either `play` or `pause` runs. -/
def AudioPlayerUI.on_play_pause (busy : Bool) (s : PlayerState) :
    PlayerState × List Call :=
  match s.current_file with
  | none => (s, [])
  | some _ =>
    if s.paused then
      AudioPlayer.play s
    else if !busy then
      let p := AudioPlayer.play s
      (p.1, Call.get_busy :: p.2)
    else
      let p := AudioPlayer.pause busy s
      (p.1, Call.get_busy :: p.2)

/-- `AudioPlayerUI.on_volume_up`: `set_volume(volume + 0.1)`. -/
def AudioPlayerUI.on_volume_up (s : PlayerState) : PlayerState × List Call :=
  AudioPlayer.set_volume (s.volume + 1/10) s

/-- `AudioPlayerUI.on_volume_down`: `set_volume(volume - 0.1)`. -/
def AudioPlayerUI.on_volume_down (s : PlayerState) : PlayerState × List Call :=
  AudioPlayer.set_volume (s.volume - 1/10) s

/-- `AudioPlayerUI.on_file_select`: joins the button label with the directory,
loads it, and plays only when the load reported success. -/
def AudioPlayerUI.on_file_select (loadOk : Bool) (directory label : String)
    (s : PlayerState) : PlayerState × List Call :=
  let r := AudioPlayer.load loadOk (pyJoin directory label) s
  if r.1 then
    let p := AudioPlayer.play r.2.1
    (p.1, r.2.2 ++ p.2)
  else
    (r.2.1, r.2.2)

/-- Player state built by `AudioPlayerUI.__init__`: a fresh `AudioPlayer` whose
playlist is then set to `get_audio_files(directory)`. -/
def AudioPlayerUI.init_player (directory : String) (listing : List (String × Bool)) :
    PlayerState :=
  { AudioPlayer.init with playlist := get_audio_files directory listing }

/-- Alphabet of the player operations, each constructor carrying the oracle
values its run consumes (backend load outcome, `get_busy` and `get_pos`
answers, the `random` module's choices). -/
inductive Op where
  | load (loadOk : Bool) (filename : String)
  | play
  | pause (busy : Bool)
  | stop
  | set_volume (v : ℚ)
  | seek (posMs : Int) (seconds : ℚ)
  | toggle_repeat
  | toggle_shuffle (shuffled : List String)
  | next_track (rnd : Int) (loadOk : Bool)
  | previous_track (rnd : Int) (loadOk : Bool)
  | on_play_pause (busy : Bool)
  | on_volume_up
  | on_volume_down
  | on_file_select (loadOk : Bool) (directory label : String)
deriving DecidableEq

/-- One operation applied to a state: the resulting state and backend trace,
or the Python exception it raises. -/
def step (op : Op) (s : PlayerState) : Except PyError (PlayerState × List Call) :=
  match op with
  | .load loadOk f => Except.ok (AudioPlayer.load loadOk f s).2
  | .play => Except.ok (AudioPlayer.play s)
  | .pause busy => Except.ok (AudioPlayer.pause busy s)
  | .stop => Except.ok (AudioPlayer.stop s)
  | .set_volume v => Except.ok (AudioPlayer.set_volume v s)
  | .seek posMs seconds => Except.ok (AudioPlayer.seek posMs seconds s)
  | .toggle_repeat => Except.ok (AudioPlayer.toggle_repeat s)
  | .toggle_shuffle shuffled => Except.ok (AudioPlayer.toggle_shuffle shuffled s)
  | .next_track rnd loadOk => AudioPlayer.next_track rnd loadOk s
  | .previous_track rnd loadOk => AudioPlayer.previous_track rnd loadOk s
  | .on_play_pause busy => Except.ok (AudioPlayerUI.on_play_pause busy s)
  | .on_volume_up => Except.ok (AudioPlayerUI.on_volume_up s)
  | .on_volume_down => Except.ok (AudioPlayerUI.on_volume_down s)
  | .on_file_select loadOk d l => Except.ok (AudioPlayerUI.on_file_select loadOk d l s)

/-- A sequence of operations run from a state; stops at the first exception. -/
def run_ops : List Op → PlayerState → Except PyError PlayerState
  | [], s => Except.ok s
  | op :: ops, s =>
    match step op s with
    | Except.ok p => run_ops ops p.1
    | Except.error e => Except.error e

/-- A state with its repeat flag overwritten (used to compare runs from states
that differ only in that flag). -/
def set_repeat (b : Bool) (s : PlayerState) : PlayerState := { s with «repeat» := b }

/-- Overwrites the repeat flag in the state part of a step result, leaving the
trace and any exception alone. -/
def mask_repeat (b : Bool) :
    Except PyError (PlayerState × List Call) → Except PyError (PlayerState × List Call)
  | Except.ok p => Except.ok (set_repeat b p.1, p.2)
  | Except.error e => Except.error e

/-- A sequence of `toggle_shuffle` calls, one oracle permutation per call. -/
def run_shuffles (choices : List (List String)) (s : PlayerState) : PlayerState :=
  choices.foldl (fun st c => (AudioPlayer.toggle_shuffle c st).1) s

/-- Constraint on the `toggle_shuffle` oracles: whenever a call turns shuffle
on, the list `random.shuffle` produced is a permutation of the playlist it was
given. -/
def valid_choices : List (List String) → PlayerState → Prop
  | [], _ => True
  | c :: cs, s =>
    (s.shuffle = false → c.Perm s.playlist) ∧
    valid_choices cs (AudioPlayer.toggle_shuffle c s).1

/-- Playback phase shown by the status line, written from the spec's
description (Paused over Playing over Stopped) for comparison with
`update_status`. -/
def status_phase (busy : Bool) (s : PlayerState) : String :=
  if s.paused then "Пауза" else if busy then "Воспроизведение" else "Остановлено"

/-! Order facts about Python's string comparison, needed to reason about
`list.sort()`. -/

theorem pyLt_asymm : ∀ a b : List Char, pyLt a b = true → pyLt b a = false
  | [], [] => by simp [pyLt]
  | [], _ :: _ => by simp [pyLt]
  | _ :: _, [] => by simp [pyLt]
  | a :: as, b :: bs => by
    simp only [pyLt]
    intro h
    by_cases hab : a = b
    · subst hab
      rw [if_pos rfl] at h ⊢
      exact pyLt_asymm as bs h
    · rw [if_neg hab] at h
      rw [if_neg (Ne.symm hab)]
      simp only [decide_eq_true_eq] at h
      exact decide_eq_false (lt_asymm h)

theorem pyLt_trans : ∀ a b c : List Char,
    pyLt a b = true → pyLt b c = true → pyLt a c = true
  | [], b, c, _, h2 => by
    cases c with
    | nil => cases b <;> simp [pyLt] at h2
    | cons y ys => simp [pyLt]
  | _ :: _, [], _, h1, _ => by simp [pyLt] at h1
  | _ :: _, _ :: _, [], _, h2 => by simp [pyLt] at h2
  | x :: xs, y :: ys, z :: zs, h1, h2 => by
    simp only [pyLt] at h1 h2 ⊢
    by_cases hxy : x = y <;> by_cases hyz : y = z
    · subst hxy; subst hyz
      rw [if_pos rfl] at h1 h2 ⊢
      exact pyLt_trans xs ys zs h1 h2
    · subst hxy
      rw [if_pos rfl] at h1
      rw [if_neg hyz] at h2 ⊢
      exact h2
    · subst hyz
      rw [if_neg hxy] at h1 ⊢
      rw [if_pos rfl] at h2
      exact h1
    · rw [if_neg hxy] at h1
      rw [if_neg hyz] at h2
      simp only [decide_eq_true_eq] at h1 h2
      have hxz : x < z := lt_trans h1 h2
      rw [if_neg (ne_of_lt hxz)]
      exact decide_eq_true hxz

theorem pyLt_conn : ∀ a b : List Char,
    pyLt a b = false → pyLt b a = false → a = b
  | [], [], _, _ => rfl
  | [], _ :: _, h1, _ => by simp [pyLt] at h1
  | _ :: _, [], _, h2 => by simp [pyLt] at h2
  | x :: xs, y :: ys, h1, h2 => by
    simp only [pyLt] at h1 h2
    by_cases hxy : x = y
    · subst hxy
      rw [if_pos rfl] at h1 h2
      rw [pyLt_conn xs ys h1 h2]
    · rw [if_neg hxy] at h1
      rw [if_neg (Ne.symm hxy)] at h2
      simp only [decide_eq_false_iff_not] at h1 h2
      exact absurd (le_antisymm (not_lt.mp h2) (not_lt.mp h1)) hxy

theorem pathLe_iff (a b : String) : pathLe a b ↔ pyLt b.data a.data = false := by
  simp [pathLe, pyStrLe, pyStrLt]

theorem pathLe_total : ∀ a b : String, pathLe a b ∨ pathLe b a := by
  intro a b
  rw [pathLe_iff, pathLe_iff]
  cases h : pyLt b.data a.data with
  | true => exact Or.inr (pyLt_asymm _ _ h)
  | false => exact Or.inl rfl

theorem pathLe_trans : ∀ a b c : String, pathLe a b → pathLe b c → pathLe a c := by
  intro a b c hab hbc
  rw [pathLe_iff] at hab hbc ⊢
  cases hca : pyLt c.data a.data with
  | false => rfl
  | true =>
    exfalso
    cases hbc1 : pyLt b.data c.data with
    | true =>
      have h2 : pyLt b.data a.data = true := pyLt_trans _ _ _ hbc1 hca
      rw [h2] at hab
      exact Bool.noConfusion hab
    | false =>
      have hdata : b.data = c.data := pyLt_conn _ _ hbc1 hbc
      rw [← hdata] at hca
      rw [hca] at hab
      exact Bool.noConfusion hab

theorem pathLe_antisymm : ∀ a b : String, pathLe a b → pathLe b a → a = b := by
  intro a b hab hba
  rw [pathLe_iff] at hab hba
  have hdata : a.data = b.data := pyLt_conn _ _ hba hab
  cases a
  cases b
  exact congrArg String.mk hdata

/-! Shuffle round-trip (claim C4). -/

theorem toggle_shuffle_playlist_perm (c : List String) (s : PlayerState)
    (h : s.shuffle = false → c.Perm s.playlist) :
    ((AudioPlayer.toggle_shuffle c s).1.playlist).Perm s.playlist := by
  cases hs : s.shuffle with
  | false =>
    simp only [AudioPlayer.toggle_shuffle, hs, Bool.not_false, if_pos]
    exact h hs
  | true =>
    simp only [AudioPlayer.toggle_shuffle, hs, Bool.not_true, Bool.false_eq_true,
      if_false, pySort]
    exact List.perm_insertionSort _ _

theorem run_shuffles_perm : ∀ (choices : List (List String)) (s : PlayerState),
    valid_choices choices s → ((run_shuffles choices s).playlist).Perm s.playlist
  | [], _, _ => List.Perm.refl _
  | c :: cs, s, hval =>
    (run_shuffles_perm cs _ hval.2).trans (toggle_shuffle_playlist_perm c s hval.1)

theorem valid_choices_append : ∀ (l1 l2 : List (List String)) (s : PlayerState),
    valid_choices (l1 ++ l2) s → valid_choices l1 s
  | [], _, _, _ => trivial
  | _ :: l1, l2, _, hval => ⟨hval.1, valid_choices_append l1 l2 _ hval.2⟩

theorem run_shuffles_append (l1 l2 : List (List String)) (s : PlayerState) :
    run_shuffles (l1 ++ l2) s = run_shuffles l2 (run_shuffles l1 s) := by
  simp [run_shuffles, List.foldl_append]

/-- C4: every finite, non-empty sequence of `toggle_shuffle` calls whose final
state has shuffle disabled leaves the playlist equal to the lexicographically
sorted arrangement of the original playlist's multiset, whichever valid
permutations `random.shuffle` produced along the way. -/
theorem C4_shuffle_round_trip_sorts (s : PlayerState) (choices : List (List String))
    (hval : valid_choices choices s) (hne : choices ≠ [])
    (hend : (run_shuffles choices s).shuffle = false) :
    (run_shuffles choices s).playlist = pySort s.playlist := by
  obtain ⟨cs, c, rfl⟩ : ∃ cs c, choices = cs ++ [c] := by
    rcases List.eq_nil_or_concat choices with h | ⟨cs, c, h⟩
    · exact absurd h hne
    · exact ⟨cs, c, by rw [h, List.concat_eq_append]⟩
  rw [run_shuffles_append] at hend ⊢
  cases hsh : (run_shuffles cs s).shuffle with
  | false =>
    exfalso
    have : (run_shuffles [c] (run_shuffles cs s)).shuffle = true := by
      show ((AudioPlayer.toggle_shuffle c _).1).shuffle = true
      simp [AudioPlayer.toggle_shuffle, hsh]
    rw [this] at hend
    exact Bool.noConfusion hend
  | true =>
    have hstep : run_shuffles [c] (run_shuffles cs s) =
        (AudioPlayer.toggle_shuffle c (run_shuffles cs s)).1 := rfl
    rw [hstep]
    simp only [AudioPlayer.toggle_shuffle, hsh, Bool.not_true, Bool.false_eq_true, if_false]
    have hperm : ((run_shuffles cs s).playlist).Perm s.playlist :=
      run_shuffles_perm cs s (valid_choices_append cs [c] s hval)
    haveI : IsTotal String pathLe := ⟨pathLe_total⟩
    haveI : IsTrans String pathLe := ⟨fun _ _ _ => pathLe_trans _ _ _⟩
    haveI : IsAntisymm String pathLe := ⟨pathLe_antisymm⟩
    exact List.eq_of_perm_of_sorted
      ((List.perm_insertionSort _ _).trans (hperm.trans (List.perm_insertionSort _ _).symm))
      (List.sorted_insertionSort _ _) (List.sorted_insertionSort _ _)

/-- Witness for C4: two toggles on the playlist `["./b.mp3", "./a.mp3"]`, the
first installing the identity permutation, end with shuffle disabled and the
playlist sorted. -/
theorem C4_witness :
    valid_choices [["./b.mp3", "./a.mp3"], ["./b.mp3", "./a.mp3"]]
      { AudioPlayer.init with playlist := ["./b.mp3", "./a.mp3"] } ∧
    ([["./b.mp3", "./a.mp3"], ["./b.mp3", "./a.mp3"]] : List (List String)) ≠ [] ∧
    (run_shuffles [["./b.mp3", "./a.mp3"], ["./b.mp3", "./a.mp3"]]
      { AudioPlayer.init with playlist := ["./b.mp3", "./a.mp3"] }).shuffle = false ∧
    (run_shuffles [["./b.mp3", "./a.mp3"], ["./b.mp3", "./a.mp3"]]
        { AudioPlayer.init with playlist := ["./b.mp3", "./a.mp3"] }).playlist =
      pySort { AudioPlayer.init with playlist := ["./b.mp3", "./a.mp3"] }.playlist := by
  have hval : valid_choices [["./b.mp3", "./a.mp3"], ["./b.mp3", "./a.mp3"]]
      { AudioPlayer.init with playlist := ["./b.mp3", "./a.mp3"] } :=
    ⟨fun _ => List.Perm.refl _, fun h => absurd h (by decide), trivial⟩
  exact ⟨hval, by decide, by decide,
    C4_shuffle_round_trip_sorts _ _ hval (by decide) (by decide)⟩

/-! Empty-playlist navigation (claim C1). -/

/-- C1: on the empty playlist, `next_track` and `previous_track` raise
(`ZeroDivisionError` from `(index ± 1) % 0` without shuffle, `ValueError` from
`random.randint(0, -1)` with shuffle) instead of being no-ops; the exception is
raised before any state field changes or any backend call is made. -/
theorem C1_empty_playlist_raises :
    AudioPlayer.next_track 0 true AudioPlayer.init =
      Except.error PyError.zeroDivisionError ∧
    AudioPlayer.previous_track 0 true AudioPlayer.init =
      Except.error PyError.zeroDivisionError ∧
    AudioPlayer.next_track 0 true { AudioPlayer.init with shuffle := true } =
      Except.error PyError.valueError ∧
    AudioPlayer.previous_track 0 true { AudioPlayer.init with shuffle := true } =
      Except.error PyError.valueError :=
  ⟨rfl, rfl, rfl, rfl⟩

/-! Load semantics (claim C2). -/

/-- Counterexample to C2 as stated: a successful load does not clear the
paused flag — loading from a paused state reports success and leaves
`paused = true`. -/
theorem C2_counterexample :
    (AudioPlayer.load true "a.mp3" { AudioPlayer.init with paused := true }).1 = true ∧
    (AudioPlayer.load true "a.mp3" { AudioPlayer.init with paused := true }).2.1.paused
      = true ∧
    true ≠ false :=
  ⟨rfl, rfl, by decide⟩

/-- C2 (amended): `load` returns the backend outcome without raising; on
success it sets `current_file` to the path and forwards the stored volume to
the backend, leaving every other field — including `paused` — unchanged; on
failure it leaves every field unchanged (so `current_file` stays unset when
nothing was ever loaded). -/
theorem C2_load_result (loadOk : Bool) (f : String) (s : PlayerState) :
    (AudioPlayer.load loadOk f s).1 = loadOk ∧
    (loadOk = true →
      (AudioPlayer.load loadOk f s).2.1 = { s with current_file := some f } ∧
      (AudioPlayer.load loadOk f s).2.2 =
        [Call.music_load f, Call.music_set_volume s.volume]) ∧
    (loadOk = false →
      (AudioPlayer.load loadOk f s).2.1 = s ∧
      (AudioPlayer.load loadOk f s).2.2 = [Call.music_load f]) := by
  cases loadOk with
  | false => exact ⟨rfl, fun h => Bool.noConfusion h, fun _ => ⟨rfl, rfl⟩⟩
  | true => exact ⟨rfl, fun _ => ⟨rfl, rfl⟩, fun h => Bool.noConfusion h⟩

/-- Witness for C2: a failed load of `"nonexistent.mp3"` from the fresh state
returns `false` and leaves the state unchanged, `current_file` still unset. -/
theorem C2_witness :
    (AudioPlayer.load false "nonexistent.mp3" AudioPlayer.init).1 = false ∧
    (AudioPlayer.load false "nonexistent.mp3" AudioPlayer.init).2.1 = AudioPlayer.init ∧
    (AudioPlayer.load false "nonexistent.mp3" AudioPlayer.init).2.2 =
      [Call.music_load "nonexistent.mp3"] :=
  ⟨(C2_load_result false "nonexistent.mp3" AudioPlayer.init).1,
    (C2_load_result false "nonexistent.mp3" AudioPlayer.init).2.2 rfl⟩

/-! Volume clamping (claim C3). -/

theorem clamp_mem (v : ℚ) : 0 ≤ max 0 (min 1 v) ∧ max 0 (min 1 v) ≤ 1 :=
  ⟨le_max_left 0 _, max_le zero_le_one (min_le_left 1 v)⟩

theorem load_volume (loadOk : Bool) (f : String) (s : PlayerState) :
    (AudioPlayer.load loadOk f s).2.1.volume = s.volume := by
  cases loadOk <;> rfl

theorem play_volume (s : PlayerState) : (AudioPlayer.play s).1.volume = s.volume := by
  simp only [AudioPlayer.play]
  split <;> rfl

theorem pause_volume (busy : Bool) (s : PlayerState) :
    (AudioPlayer.pause busy s).1.volume = s.volume := by
  simp only [AudioPlayer.pause]
  split <;> rfl

theorem seek_volume (posMs : Int) (seconds : ℚ) (s : PlayerState) :
    (AudioPlayer.seek posMs seconds s).1.volume = s.volume := by
  simp only [AudioPlayer.seek]
  split <;> rfl

theorem toggle_shuffle_volume (c : List String) (s : PlayerState) :
    (AudioPlayer.toggle_shuffle c s).1.volume = s.volume := by
  simp only [AudioPlayer.toggle_shuffle]
  split <;> rfl

theorem load_and_play_volume (loadOk : Bool) (s : PlayerState) (p : PlayerState × List Call)
    (h : AudioPlayer.load_and_play loadOk s = Except.ok p) : p.1.volume = s.volume := by
  simp only [AudioPlayer.load_and_play] at h
  split at h
  · exact Except.noConfusion h
  · cases Except.ok.inj h
    rw [play_volume, load_volume]

theorem next_track_volume (rnd : Int) (loadOk : Bool) (s : PlayerState)
    (p : PlayerState × List Call) (h : AudioPlayer.next_track rnd loadOk s = Except.ok p) :
    p.1.volume = s.volume := by
  simp only [AudioPlayer.next_track] at h
  split at h <;> split at h
  · exact Except.noConfusion h
  · exact load_and_play_volume loadOk { s with current_index := rnd } p h
  · exact Except.noConfusion h
  · exact load_and_play_volume loadOk
      { s with current_index := (s.current_index + 1).emod s.playlist.length } p h

theorem previous_track_volume (rnd : Int) (loadOk : Bool) (s : PlayerState)
    (p : PlayerState × List Call) (h : AudioPlayer.previous_track rnd loadOk s = Except.ok p) :
    p.1.volume = s.volume := by
  simp only [AudioPlayer.previous_track] at h
  split at h <;> split at h
  · exact Except.noConfusion h
  · exact load_and_play_volume loadOk { s with current_index := rnd } p h
  · exact Except.noConfusion h
  · exact load_and_play_volume loadOk
      { s with current_index := (s.current_index - 1).emod s.playlist.length } p h

theorem on_play_pause_volume (busy : Bool) (s : PlayerState) :
    (AudioPlayerUI.on_play_pause busy s).1.volume = s.volume := by
  simp only [AudioPlayerUI.on_play_pause]
  split
  · rfl
  · split
    · rw [play_volume]
    · split
      · rw [play_volume]
      · rw [pause_volume]

theorem on_file_select_volume (loadOk : Bool) (d l : String) (s : PlayerState) :
    (AudioPlayerUI.on_file_select loadOk d l s).1.volume = s.volume := by
  simp only [AudioPlayerUI.on_file_select]
  split
  · rw [play_volume, load_volume]
  · rw [load_volume]

theorem step_volume (op : Op) (s : PlayerState) (p : PlayerState × List Call)
    (h : step op s = Except.ok p) (hv : 0 ≤ s.volume ∧ s.volume ≤ 1) :
    0 ≤ p.1.volume ∧ p.1.volume ≤ 1 := by
  cases op with
  | load loadOk f => cases Except.ok.inj h; simpa only [load_volume] using hv
  | play => cases Except.ok.inj h; simpa only [play_volume] using hv
  | pause busy => cases Except.ok.inj h; simpa only [pause_volume] using hv
  | stop => cases Except.ok.inj h; exact hv
  | set_volume v => cases Except.ok.inj h; exact clamp_mem v
  | seek posMs seconds => cases Except.ok.inj h; simpa only [seek_volume] using hv
  | toggle_repeat => cases Except.ok.inj h; exact hv
  | toggle_shuffle c => cases Except.ok.inj h; simpa only [toggle_shuffle_volume] using hv
  | next_track rnd loadOk => rw [next_track_volume rnd loadOk s p h]; exact hv
  | previous_track rnd loadOk => rw [previous_track_volume rnd loadOk s p h]; exact hv
  | on_play_pause busy => cases Except.ok.inj h; simpa only [on_play_pause_volume] using hv
  | on_volume_up => cases Except.ok.inj h; exact clamp_mem _
  | on_volume_down => cases Except.ok.inj h; exact clamp_mem _
  | on_file_select loadOk d l =>
    cases Except.ok.inj h; simpa only [on_file_select_volume] using hv

theorem run_ops_volume : ∀ (ops : List Op) (s s' : PlayerState),
    run_ops ops s = Except.ok s' → 0 ≤ s.volume ∧ s.volume ≤ 1 →
    0 ≤ s'.volume ∧ s'.volume ≤ 1
  | [], _, _, h, hv => by
    simp only [run_ops] at h
    cases Except.ok.inj h
    exact hv
  | op :: ops, s, s', h, hv => by
    simp only [run_ops] at h
    cases hstep : step op s with
    | ok p =>
      rw [hstep] at h
      exact run_ops_volume ops p.1 s' h (step_volume op s p hstep hv)
    | error e =>
      rw [hstep] at h
      exact Except.noConfusion h

/-- C3: from the initial state (volume 1.0), every sequence of player
operations keeps the stored volume inside `[0, 1]`; `set_volume` clamps its
argument to the nearest bound, so volume-down at 0 stays 0 and volume-up at
the maximum stays at the maximum. -/
theorem C3_volume_clamped :
    (∀ (ops : List Op) (s' : PlayerState), run_ops ops AudioPlayer.init = Except.ok s' →
      0 ≤ s'.volume ∧ s'.volume ≤ 1) ∧
    (∀ (v : ℚ) (s : PlayerState),
      (AudioPlayer.set_volume v s).1.volume = max 0 (min 1 v)) ∧
    (∀ s : PlayerState, s.volume = 0 → (AudioPlayerUI.on_volume_down s).1.volume = 0) ∧
    (∀ s : PlayerState, s.volume = 1 → (AudioPlayerUI.on_volume_up s).1.volume = 1) := by
  refine ⟨fun ops s' h => run_ops_volume ops _ s' h (by norm_num [AudioPlayer.init]),
    fun v s => rfl, fun s h0 => ?_, fun s h1 => ?_⟩
  · show max 0 (min 1 (s.volume - 1/10)) = 0
    rw [h0]
    norm_num
  · show max 0 (min 1 (s.volume + 1/10)) = 1
    rw [h1]
    norm_num

/-- Witness for C3: a concrete run (a bare `play`) from the initial state ends
with volume 1, inside the range; volume-down at 0 yields 0 and volume-up at 1
yields 1. -/
theorem C3_witness :
    (0 ≤ AudioPlayer.init.volume ∧ AudioPlayer.init.volume ≤ 1) ∧
    (AudioPlayerUI.on_volume_down { AudioPlayer.init with volume := 0 }).1.volume = 0 ∧
    (AudioPlayerUI.on_volume_up { AudioPlayer.init with volume := 1 }).1.volume = 1 :=
  ⟨C3_volume_clamped.1 [Op.play] AudioPlayer.init rfl,
    C3_volume_clamped.2.2.1 { AudioPlayer.init with volume := 0 } rfl,
    C3_volume_clamped.2.2.2 { AudioPlayer.init with volume := 1 } rfl⟩

/-! Non-shuffled track navigation (claim C5). -/

theorem load_and_play_ok (loadOk : Bool) (s : PlayerState) (t : String)
    (ht : pyIndex s.playlist s.current_index = some t) :
    AudioPlayer.load_and_play loadOk s =
      Except.ok
        ({ s with
            current_file := if loadOk then some t else s.current_file
            paused := false },
          Call.music_load t ::
            ((if loadOk then [Call.music_set_volume s.volume] else []) ++
              [if s.paused then Call.music_unpause else Call.music_play])) := by
  simp only [AudioPlayer.load_and_play, ht]
  cases loadOk <;> cases hp : s.paused <;>
    simp [AudioPlayer.load, AudioPlayer.play, hp]

theorem pyIndex_emod (l : List String) (i : Int) (hne : l ≠ []) :
    ∃ t, pyIndex l (i.emod l.length) = some t ∧
      l.get? (i.emod l.length).toNat = some t := by
  have hpos : (0 : Int) < l.length := by exact_mod_cast List.length_pos.mpr hne
  have h0 : 0 ≤ i.emod l.length := Int.emod_nonneg i (by omega)
  have hlt : i.emod l.length < l.length := Int.emod_lt_of_pos i hpos
  have hnat : (i.emod l.length).toNat < l.length := by omega
  refine ⟨l.get ⟨(i.emod l.length).toNat, hnat⟩, ?_, List.get?_eq_get hnat⟩
  simp [pyIndex, h0, List.get?_eq_get hnat]

/-- C5: with shuffle off and a non-empty playlist of length `n`, `next_track`
moves `current_index` to `(current_index + 1) mod n` and `previous_track` to
`(current_index - 1) mod n` — wrapping from the last index to 0 and from 0 to
`n - 1` — and each then issues a backend load of the track now at
`current_index` followed by a play (an unpause when the paused flag was set),
recording the loaded track in `current_file` when the load succeeds. -/
theorem C5_next_previous_wrap (s : PlayerState) (rnd : Int) (loadOk : Bool)
    (hsh : s.shuffle = false) (hne : s.playlist ≠ []) :
    ∃ tn tp : String,
      s.playlist.get? ((s.current_index + 1).emod s.playlist.length).toNat = some tn ∧
      s.playlist.get? ((s.current_index - 1).emod s.playlist.length).toNat = some tp ∧
      AudioPlayer.next_track rnd loadOk s =
        Except.ok
          ({ s with
              current_index := (s.current_index + 1).emod s.playlist.length
              current_file := if loadOk then some tn else s.current_file
              paused := false },
            Call.music_load tn ::
              ((if loadOk then [Call.music_set_volume s.volume] else []) ++
                [if s.paused then Call.music_unpause else Call.music_play])) ∧
      AudioPlayer.previous_track rnd loadOk s =
        Except.ok
          ({ s with
              current_index := (s.current_index - 1).emod s.playlist.length
              current_file := if loadOk then some tp else s.current_file
              paused := false },
            Call.music_load tp ::
              ((if loadOk then [Call.music_set_volume s.volume] else []) ++
                [if s.paused then Call.music_unpause else Call.music_play])) ∧
      (s.current_index = (s.playlist.length : Int) - 1 →
        (s.current_index + 1).emod s.playlist.length = 0) ∧
      (s.current_index = 0 →
        (s.current_index - 1).emod s.playlist.length = (s.playlist.length : Int) - 1) := by
  obtain ⟨tn, htnPy, htn⟩ := pyIndex_emod s.playlist (s.current_index + 1) hne
  obtain ⟨tp, htpPy, htp⟩ := pyIndex_emod s.playlist (s.current_index - 1) hne
  have hlen : s.playlist.length ≠ 0 := fun h => hne (List.length_eq_zero.mp h)
  have hpos : (0 : Int) < s.playlist.length := by
    exact_mod_cast List.length_pos.mpr hne
  refine ⟨tn, tp, htn, htp, ?_, ?_, ?_, ?_⟩
  · have hnext : AudioPlayer.next_track rnd loadOk s =
        AudioPlayer.load_and_play loadOk
          { s with current_index := (s.current_index + 1).emod s.playlist.length } := by
      simp only [AudioPlayer.next_track, hsh, Bool.false_eq_true, if_false]
      rw [if_neg hlen]
    rw [hnext]
    exact load_and_play_ok loadOk
      { s with current_index := (s.current_index + 1).emod s.playlist.length } tn htnPy
  · have hprev : AudioPlayer.previous_track rnd loadOk s =
        AudioPlayer.load_and_play loadOk
          { s with current_index := (s.current_index - 1).emod s.playlist.length } := by
      simp only [AudioPlayer.previous_track, hsh, Bool.false_eq_true, if_false]
      rw [if_neg hlen]
    rw [hprev]
    exact load_and_play_ok loadOk
      { s with current_index := (s.current_index - 1).emod s.playlist.length } tp htpPy
  · intro hidx
    rw [hidx, Int.sub_add_cancel]
    exact Int.emod_self
  · intro hidx
    rw [hidx]
    have hrw : (0 : Int) - 1 = ((s.playlist.length : Int) - 1) + s.playlist.length * (-1) := by
      ring
    rw [hrw]
    show ((s.playlist.length : Int) - 1 + s.playlist.length * (-1)) % (s.playlist.length : Int)
      = (s.playlist.length : Int) - 1
    rw [Int.add_mul_emod_self_left]
    exact Int.emod_eq_of_lt (by omega) (by omega)

/-- Witness for C5: on the playlist `["x", "y", "z"]` at index 2, `next_track`
wraps to index 0 and loads and plays `"x"`, and `previous_track` moves to
index 1 and loads and plays `"y"`. -/
theorem C5_witness :
    ({ AudioPlayer.init with playlist := ["x", "y", "z"], current_index := 2 }
      : PlayerState).shuffle = false ∧
    ({ AudioPlayer.init with playlist := ["x", "y", "z"], current_index := 2 }
      : PlayerState).playlist ≠ [] ∧
    ∃ tn tp : String,
      (["x", "y", "z"] : List String).get? 0 = some tn ∧
      (["x", "y", "z"] : List String).get? 1 = some tp ∧
      AudioPlayer.next_track 0 true
          { AudioPlayer.init with playlist := ["x", "y", "z"], current_index := 2 } =
        Except.ok
          ({ AudioPlayer.init with
              playlist := ["x", "y", "z"]
              current_index := 0
              current_file := some tn
              paused := false },
            [Call.music_load tn, Call.music_set_volume 1, Call.music_play]) ∧
      AudioPlayer.previous_track 0 true
          { AudioPlayer.init with playlist := ["x", "y", "z"], current_index := 2 } =
        Except.ok
          ({ AudioPlayer.init with
              playlist := ["x", "y", "z"]
              current_index := 1
              current_file := some tp
              paused := false },
            [Call.music_load tp, Call.music_set_volume 1, Call.music_play]) ∧
      ((2 : Int) = (3 : Int) - 1 → ((2 : Int) + 1).emod 3 = 0) ∧
      ((2 : Int) = 0 → ((2 : Int) - 1).emod 3 = (3 : Int) - 1) :=
  ⟨rfl, by decide,
    C5_next_previous_wrap
      { AudioPlayer.init with playlist := ["x", "y", "z"], current_index := 2 }
      0 true rfl (by decide)⟩

/-! Play intent with no track loaded (claim C6). -/

/-- C6: with no current file, the play/pause intent (`on_play_pause`, the only
place the play command is guarded) returns the state unchanged and makes no
backend call — not even the `get_busy` probe, which Python short-circuits. -/
theorem C6_play_noop_without_file (busy : Bool) (s : PlayerState)
    (h : s.current_file = none) :
    AudioPlayerUI.on_play_pause busy s = (s, []) := by
  simp only [AudioPlayerUI.on_play_pause, h]

/-- Witness for C6: the fresh state has no file and the intent is a no-op. -/
theorem C6_witness :
    AudioPlayer.init.current_file = none ∧
    AudioPlayerUI.on_play_pause true AudioPlayer.init = (AudioPlayer.init, []) :=
  ⟨rfl, C6_play_noop_without_file true AudioPlayer.init rfl⟩

/-! Relative seek (claim C7). -/

/-- C7: `seek` is a no-op (state untouched, no backend call) when no file is
loaded; otherwise it reads the backend position and asks for the absolute
position `max 0 (position + delta)` — never negative, with no upper clamp
applied — leaving the state untouched. -/
theorem C7_seek_clamps_at_zero (posMs : Int) (delta : ℚ) (s : PlayerState) :
    (s.current_file = none → AudioPlayer.seek posMs delta s = (s, [])) ∧
    (s.current_file.isSome = true →
      AudioPlayer.seek posMs delta s =
        (s, [Call.get_pos, Call.set_pos (max 0 ((posMs : ℚ) / 1000 + delta))]) ∧
      0 ≤ max 0 ((posMs : ℚ) / 1000 + delta)) := by
  constructor
  · intro h
    simp [AudioPlayer.seek, h]
  · intro h
    refine ⟨?_, le_max_left 0 _⟩
    simp [AudioPlayer.seek, h]

/-- Witness for C7: seeking -10 seconds with the backend at 5000 ms targets
`max 0 (5 - 10)`, which the evaluation shows is 0, not a negative position. -/
theorem C7_witness :
    (AudioPlayer.seek 5000 (-10) { AudioPlayer.init with current_file := some "x" } =
      ({ AudioPlayer.init with current_file := some "x" },
        [Call.get_pos, Call.set_pos (max 0 (((5000 : Int) : ℚ) / 1000 + (-10)))]) ∧
      0 ≤ max 0 (((5000 : Int) : ℚ) / 1000 + (-10))) ∧
    max 0 (((5000 : Int) : ℚ) / 1000 + (-10)) = 0 :=
  ⟨(C7_seek_clamps_at_zero 5000 (-10)
      { AudioPlayer.init with current_file := some "x" }).2 rfl,
    max_eq_left (by norm_num)⟩

/-! Status line contents (claim C8). -/

/-- Counterexample to C8 as stated: the status text contains no volume
fragment — two states that differ only in volume produce the same status
text, so the summary cannot include the current volume. -/
theorem C8_counterexample :
    update_status false
        { AudioPlayer.init with current_file := some "./a.mp3", volume := 0 } =
      update_status false
        { AudioPlayer.init with current_file := some "./a.mp3", volume := 1 } ∧
    ({ AudioPlayer.init with current_file := some "./a.mp3", volume := 0 }
        : PlayerState).volume ≠
      ({ AudioPlayer.init with current_file := some "./a.mp3", volume := 1 }
        : PlayerState).volume := by
  refine ⟨by decide, ?_⟩
  show (0 : ℚ) ≠ 1
  norm_num

/-- C8 (amended): the status summary is a pure function of the state and the
playing probe, made of the playback phase (Paused over Playing over Stopped,
the paused flag overriding the probe) followed by the current file's base name
exactly when a file is set, joined by a fixed separator; the volume is not
part of the summary. -/
theorem C8_status_fragments (busy : Bool) (s : PlayerState) :
    update_status busy s =
      " Статус: " ++
        String.intercalate " | "
          (status_phase busy s ::
            (match s.current_file with
              | some f => ["Файл: " ++ basename f]
              | none => [])) ++ " " ∧
    (s.paused = true → status_phase busy s = "Пауза") ∧
    (s.paused = false → busy = true → status_phase busy s = "Воспроизведение") ∧
    (s.paused = false → busy = false → status_phase busy s = "Остановлено") ∧
    (∀ v : ℚ, update_status busy { s with volume := v } = update_status busy s) := by
  refine ⟨?_, ?_, ?_, ?_, fun v => rfl⟩
  · simp only [update_status, status_fragments, status_phase]
    cases hp : s.paused <;> cases hb : busy <;> simp
  · intro h
    simp [status_phase, h]
  · intro h hb
    simp [status_phase, h, hb]
  · intro h hb
    simp [status_phase, h, hb]

/-- Witness for C8: a paused state with a stale `busy = true` probe reports
the paused phase and the file's base name, and changing the volume leaves the
status text unchanged. -/
theorem C8_witness :
    update_status true
        { AudioPlayer.init with paused := true, current_file := some "./a.mp3" } =
      " Статус: " ++
        String.intercalate " | "
          (status_phase true
              { AudioPlayer.init with paused := true, current_file := some "./a.mp3" } ::
            ["Файл: " ++ basename "./a.mp3"]) ++ " " ∧
    status_phase true
        { AudioPlayer.init with paused := true, current_file := some "./a.mp3" } =
      "Пауза" ∧
    update_status true
        { AudioPlayer.init with
            paused := true
            current_file := some "./a.mp3"
            volume := 0 } =
      update_status true
        { AudioPlayer.init with paused := true, current_file := some "./a.mp3" } :=
  ⟨(C8_status_fragments true
      { AudioPlayer.init with paused := true, current_file := some "./a.mp3" }).1,
    (C8_status_fragments true
      { AudioPlayer.init with paused := true, current_file := some "./a.mp3" }).2.1 rfl,
    (C8_status_fragments true
      { AudioPlayer.init with paused := true, current_file := some "./a.mp3" }).2.2.2.2 0⟩

/-! Startup playlist (claim C9). -/

/-- Counterexample to C9 as stated: a directory listing
`["b.mp3", "a.mp3", "c.wav"]` yields the playlist in listing order,
`["./b.mp3", "./a.mp3", "./c.wav"]`, which differs from the lexicographically
sorted sequence the claim requires. -/
theorem C9_counterexample :
    (AudioPlayerUI.init_player "."
        [("b.mp3", true), ("a.mp3", true), ("c.wav", true)]).playlist =
      ["./b.mp3", "./a.mp3", "./c.wav"] ∧
    (AudioPlayerUI.init_player "."
        [("b.mp3", true), ("a.mp3", true), ("c.wav", true)]).current_index = 0 ∧
    pySort ["./b.mp3", "./a.mp3", "./c.wav"] = ["./a.mp3", "./b.mp3", "./c.wav"] ∧
    (["./b.mp3", "./a.mp3", "./c.wav"] : List String) ≠
      ["./a.mp3", "./b.mp3", "./c.wav"] :=
  ⟨by decide, rfl, by decide, by decide⟩

/-- C9 (amended): startup sets `current_index` to 0, leaves `current_file`
unset, and sets `playlist` to the supported audio files joined with the
directory in the order the directory listing returned them — no sorting: the
playlist is a sublist of the joined listing, and a path appears in it exactly
when the listing has a matching audio-file entry. -/
theorem C9_init_listing_order (directory : String) (listing : List (String × Bool)) :
    (AudioPlayerUI.init_player directory listing).playlist =
      get_audio_files directory listing ∧
    (AudioPlayerUI.init_player directory listing).current_index = 0 ∧
    (AudioPlayerUI.init_player directory listing).current_file = none ∧
    ((AudioPlayerUI.init_player directory listing).playlist).Sublist
      (listing.map fun e => pyJoin directory e.1) ∧
    (∀ p : String,
      p ∈ (AudioPlayerUI.init_player directory listing).playlist ↔
        ∃ e ∈ listing,
          ((audio_extensions.any fun ext => pyEndswith (pyLower e.1) ext) && e.2) = true ∧
          p = pyJoin directory e.1) := by
  refine ⟨rfl, rfl, rfl, List.Sublist.map _ (List.filter_sublist _), fun p => ?_⟩
  simp only [AudioPlayerUI.init_player, get_audio_files, List.mem_map, List.mem_filter]
  constructor
  · rintro ⟨e, ⟨he, hpred⟩, rfl⟩
    exact ⟨e, he, hpred, rfl⟩
  · rintro ⟨e, he, hpred, rfl⟩
    exact ⟨e, ⟨he, hpred⟩, rfl⟩

/-! Inertness of the repeat flag (claim C10). -/

theorem load_and_play_repeat (loadOk b : Bool) (s : PlayerState) :
    AudioPlayer.load_and_play loadOk (set_repeat b s) =
      mask_repeat b (AudioPlayer.load_and_play loadOk s) := by
  obtain ⟨cf, ps, v, r, sh, pl, ci⟩ := s
  cases hpi : pyIndex pl ci with
  | none => simp only [AudioPlayer.load_and_play, set_repeat, mask_repeat, hpi]
  | some t =>
    simp only [AudioPlayer.load_and_play, set_repeat, mask_repeat, hpi]
    cases loadOk <;> cases ps <;> rfl

/-- C10: every operation other than `toggle_repeat` neither reads nor writes
the repeat flag: started from two states that differ only in that flag, it
raises the same exception or produces the same backend trace and the same
resulting state apart from the untouched flag. -/
theorem C10_repeat_flag_inert (op : Op) (b : Bool) (s : PlayerState)
    (h : op ≠ Op.toggle_repeat) :
    step op (set_repeat b s) = mask_repeat b (step op s) := by
  obtain ⟨cf, ps, v, r, sh, pl, ci⟩ := s
  cases op with
  | load loadOk f => cases loadOk <;> rfl
  | play => cases ps <;> rfl
  | pause busy => cases busy <;> cases ps <;> rfl
  | stop => rfl
  | set_volume v2 => rfl
  | seek posMs seconds => cases cf <;> rfl
  | toggle_repeat => exact absurd rfl h
  | toggle_shuffle c => cases sh <;> rfl
  | next_track rnd loadOk =>
    cases sh with
    | true =>
      cases pl with
      | nil => rfl
      | cons hd tl =>
        exact load_and_play_repeat loadOk b ⟨cf, ps, v, r, true, hd :: tl, rnd⟩
    | false =>
      cases pl with
      | nil => rfl
      | cons hd tl =>
        exact load_and_play_repeat loadOk b
          ⟨cf, ps, v, r, false, hd :: tl, (ci + 1).emod (hd :: tl).length⟩
  | previous_track rnd loadOk =>
    cases sh with
    | true =>
      cases pl with
      | nil => rfl
      | cons hd tl =>
        exact load_and_play_repeat loadOk b ⟨cf, ps, v, r, true, hd :: tl, rnd⟩
    | false =>
      cases pl with
      | nil => rfl
      | cons hd tl =>
        exact load_and_play_repeat loadOk b
          ⟨cf, ps, v, r, false, hd :: tl, (ci - 1).emod (hd :: tl).length⟩
  | on_play_pause busy =>
    cases cf with
    | none => rfl
    | some f => cases ps <;> cases busy <;> rfl
  | on_volume_up => rfl
  | on_volume_down => rfl
  | on_file_select loadOk d l => cases loadOk <;> cases ps <;> rfl

/-- Witness for C10: the `play` operation treats the initial state and the
same state with repeat enabled identically. -/
theorem C10_witness :
    Op.play ≠ Op.toggle_repeat ∧
    step Op.play (set_repeat true AudioPlayer.init) =
      mask_repeat true (step Op.play AudioPlayer.init) :=
  ⟨by decide, C10_repeat_flag_inert Op.play true AudioPlayer.init (by decide)⟩

end OpenUMP
